import Mathlib

/-!
Shallow embedding of the reminder scheduling and persistence subsystem of
the smolassistant repository, together with theorems checking the
specification's claims about it.

The embedded source files are:
* `src/smolassistant/tools/reminder/service.py` (class `ReminderService`)
* `src/smolassistant/tools/reminder/reminder_tool.py` (the agent tools)
* the scheduling behaviour of the third-party `schedule` library, modelled
  at the level of detail the source relies on (job registration via
  `every(...).<unit>.do(...)`, tagging, `clear(tag)`, `at(time_spec)` unit
  validation, `run_pending`).

Timestamps (`datetime` values) are modelled as integers (seconds); an ISO
string argument is modelled by its parse result.  SQLite tables are lists
of rows; a failing store write/delete is modelled by a `storeOk : Bool`
oracle, and the delivery callback (`reminder_queue.put`) possibly raising
is modelled by a `cbFails : String → Bool` oracle on the delivered text.
Every operation additionally returns the ordered list of observable
`Event`s it performed, so that ordering properties (store write vs. job
registration, deliveries) can be stated.
-/

/-- Units of the `schedule` library (`Job.unit`). Weekday jobs created via
`schedule.every().monday` etc. have unit `weeks` plus a `start_day`. -/
inductive ScheduleUnit
  | seconds
  | minutes
  | hours
  | days
  | weeks
deriving DecidableEq, Repr

/-- Seconds in one schedule unit (used for the job period). -/
def unitSeconds : ScheduleUnit → Int
  | .seconds => 1
  | .minutes => 60
  | .hours => 3600
  | .days => 86400
  | .weeks => 604800

/-- The closure bound by `.do(reminder_job, ...)`.
`oneTime` is the `reminder_job` of `ReminderService.create_one_time_reminder`
(delivers, deletes the row, returns `CancelJob`); `oneTimeTool` is the
`reminder_job` of the `set_reminder` tool (no database access);
`recurring` is the `reminder_job` of `create_recurring_reminder`. -/
inductive JobAction
  | oneTime (message : String) (reminderId : String)
  | oneTimeTool (message : String) (reminderId : String)
  | recurring (message : String) (reminderId : String)
      (displayInterval : String) (timeSpec : String)
deriving DecidableEq, Repr

/-- A job of the process-wide `schedule` scheduler.  `nextRun` is the
absolute trigger time computed at registration; for `at`/weekday jobs the
library aligns it to the clock time, which no theorem below inspects, so
the period-based value is used uniformly. -/
structure Job where
  interval : Int
  unit : ScheduleUnit
  startDay : Option String
  atTime : Option String
  nextRun : Int
  tags : List String
  action : JobAction
deriving DecidableEq, Repr

/-- The `reminder_id` keyword bound in the job's closure. -/
def Job.rid (j : Job) : String :=
  match j.action with
  | .oneTime _ r => r
  | .oneTimeTool _ r => r
  | .recurring _ r _ _ => r

/-- The `message` keyword bound in the job's closure. -/
def Job.msg (j : Job) : String :=
  match j.action with
  | .oneTime m _ => m
  | .oneTimeTool m _ => m
  | .recurring m _ _ _ => m

/-- A row of the `one_time_reminders` table.  The `due_time` column holds
an ISO string, modelled by its `fromisoformat` parse result (`none` when
parsing would raise `ValueError`). -/
structure OneTimeRow where
  id : String
  message : String
  dueTime : Option Int
  createdAt : Int
deriving DecidableEq, Repr

/-- A row of the `recurring_reminders` table. -/
structure RecurringRow where
  id : String
  message : String
  interval : String
  timeSpec : String
  createdAt : Int
deriving DecidableEq, Repr

/-- The reminder subsystem state: the two SQLite tables and the in-memory
job list of the `schedule` scheduler. -/
structure ServiceState where
  oneTimeRows : List OneTimeRow
  recurringRows : List RecurringRow
  jobs : List Job
deriving DecidableEq, Repr

/-- Observable effects, in execution order. -/
inductive Event
  | registerJob (id : String)
  | storeWriteOneTime (id : String)
  | storeWriteRecurring (id : String)
  | storeWriteFailed (id : String)
  | clearSchedule (tag : String)
  | storeDeleteOneTime (id : String)
  | storeDeleteRecurring (id : String)
  | storeDeleteFailed (id : String)
  | deliver (id : String) (message : String)
  | jobRaised (id : String)
deriving DecidableEq, Repr

/-- Python exceptions that can escape the embedded functions. -/
inductive PyError
  | valueError
  | scheduleValueError
deriving DecidableEq, Repr

deriving instance DecidableEq for Except

/-- `str.split()` of Python: split on whitespace runs, dropping empties. -/
def pySplitWsAux : List Char → List Char → List String
  | [], acc => if acc.isEmpty then [] else [String.mk acc.reverse]
  | c :: cs, acc =>
    if c.isWhitespace then
      if acc.isEmpty then pySplitWsAux cs []
      else String.mk acc.reverse :: pySplitWsAux cs []
    else pySplitWsAux cs (c :: acc)

/-- `str.split()` of Python applied to a string. -/
def pySplitWs (s : String) : List String :=
  pySplitWsAux s.data []

/-- `str.isdigit()` of Python (restricted to ASCII digits). -/
def pyIsDigit (s : String) : Bool :=
  !s.data.isEmpty && s.data.all Char.isDigit

/-- `int(s)` of Python on an ASCII digit string. -/
def pyInt (s : String) : Nat :=
  s.data.foldl (fun n c => n * 10 + (c.toNat - 48)) 0

/-- ASCII lower-casing of one character (`str.lower()`; the interval
keywords are ASCII). -/
def pyLowerChar (c : Char) : Char :=
  if 'A' ≤ c ∧ c ≤ 'Z' then Char.ofNat (c.toNat + 32) else c

/-- `str.lower()` of Python. -/
def pyToLower (s : String) : String :=
  String.mk (s.data.map pyLowerChar)

/-- `unit[:-1] if unit.endswith('s') else unit`: strip one trailing
plural `'s'`. -/
def pyStripS (s : String) : String :=
  if s.data.getLast? = some 's' then String.mk s.data.dropLast else s

/-- Python truthiness of an optional-string parameter defaulting on falsy
(`reminder_id or generated`). -/
def pyOrElse (s : Option String) (dflt : String) : String :=
  match s with
  | none => dflt
  | some v => if v = "" then dflt else v

/-- The one-time delivery text `f"🔔 REMINDER: {message}"`. -/
def oneTimeFormat (message : String) : String :=
  "🔔 REMINDER: " ++ message

/-- The recurring delivery text built by `reminder_job` in
`create_recurring_reminder`. -/
def recurringFormat (displayInterval timeSpec message : String) : String :=
  if timeSpec ≠ "" then
    "🔄 RECURRING REMINDER (" ++ displayInterval ++ " at " ++ timeSpec ++ "): " ++ message
  else
    "🔄 RECURRING REMINDER (" ++ displayInterval ++ "): " ++ message

/-- `INSERT OR REPLACE INTO one_time_reminders` (replace by primary key). -/
def upsertOneTime (st : ServiceState) (row : OneTimeRow) : ServiceState :=
  if st.oneTimeRows.any (fun r => r.id = row.id) then
    { st with oneTimeRows := st.oneTimeRows.map (fun r => if r.id = row.id then row else r) }
  else
    { st with oneTimeRows := st.oneTimeRows ++ [row] }

/-- `INSERT OR REPLACE INTO recurring_reminders` (replace by primary key). -/
def upsertRecurring (st : ServiceState) (row : RecurringRow) : ServiceState :=
  if st.recurringRows.any (fun r => r.id = row.id) then
    { st with recurringRows := st.recurringRows.map (fun r => if r.id = row.id then row else r) }
  else
    { st with recurringRows := st.recurringRows ++ [row] }

/-- `schedule.clear(tag)`: drop every job carrying the tag. -/
def scheduleClear (tag : String) (jobs : List Job) : List Job :=
  jobs.filter (fun j => !(j.tags.contains tag))

/-- The `due_time` argument of `create_one_time_reminder`: either Python
`None`, or a string abstracted by its `fromisoformat` parse result
(`none` when parsing raises). -/
inductive DueArg
  | pyNone
  | str (parsed : Option Int)
deriving DecidableEq, Repr

/-- Truthiness of the `due_time` argument (`if due_time and ...`).  A
string argument is truthy; the empty string (which would be falsy in
Python) also fails `fromisoformat`, so it is covered by `str none`, a
case no caller of the write path reaches. -/
def DueArg.truthy : DueArg → Bool
  | .pyNone => false
  | .str _ => true

/-- Parse result carried by a `due_time` string argument. -/
def DueArg.parsed : DueArg → Option Int
  | .pyNone => none
  | .str p => p

/-- `ReminderService.create_one_time_reminder` from
`tools/reminder/service.py`.  `hasCallback` models
`self._callback_fn is not None` (a callback is configured exactly when the
service was constructed with a `reminder_queue`); `storeOk` models whether
the SQLite write raises `sqlite3.Error`; `freshId` models the generated
`f"reminder_{uuid.uuid4()}"`; `now` models `datetime.now()`. -/
def create_one_time_reminder (hasCallback storeOk : Bool) (st : ServiceState)
    (message : String) (reminderId : Option String) (freshId : String)
    (secondsUntilDue : Option Int) (dueTime : DueArg) (now : Int) :
    (Option String × Option Job) × ServiceState × List Event :=
  if !hasCallback then ((none, none), st, [])
  else
    let rid := pyOrElse reminderId freshId
    let s? : Option Int :=
      match secondsUntilDue, dueTime with
      | some s, _ => some s
      | none, .pyNone => none
      | none, .str none => none
      | none, .str (some t) => some (t - now)
    match s? with
    | none => ((none, none), st, [])
    | some s =>
      let job : Job :=
        { interval := s, unit := .seconds, startDay := none, atTime := none,
          nextRun := now + s, tags := ["reminder", rid],
          action := .oneTime message rid }
      let st1 := { st with jobs := st.jobs ++ [job] }
      if dueTime.truthy && decide (0 < s) then
        if storeOk then
          ((some rid, some job),
           upsertOneTime st1
             { id := rid, message := message, dueTime := dueTime.parsed, createdAt := now },
           [.registerJob rid, .storeWriteOneTime rid])
        else
          ((some rid, some job), st1, [.registerJob rid, .storeWriteFailed rid])
      else
        ((some rid, some job), st1, [.registerJob rid])

/-- One grammar case of `create_recurring_reminder`'s interval dispatch:
a counted interval `schedule.every(n).<unit>` or a bare/weekday entry of
the `interval_methods` table (with its optional `.at(time_spec)`). -/
inductive RecurringRule
  | counted (n : Nat) (u : ScheduleUnit)
  | bare (u : ScheduleUnit) (startDay : Option String) (atTime : Option String)
deriving DecidableEq, Repr

/-- The counted-interval unit dispatch of `create_recurring_reminder`
(after stripping a trailing `'s'`): only second/minute/hour/day are
mapped; anything else leaves `job = None`. -/
def countedUnit : String → Option ScheduleUnit
  | "second" => some .seconds
  | "minute" => some .minutes
  | "hour" => some .hours
  | "day" => some .days
  | _ => none

/-- The `interval_methods` dictionary: bare unit and weekday entries,
as `(schedule unit, start_day)`. -/
def intervalMethods : String → Option (ScheduleUnit × Option String)
  | "second" => some (.seconds, none)
  | "minute" => some (.minutes, none)
  | "hour" => some (.hours, none)
  | "day" => some (.days, none)
  | "monday" => some (.weeks, some "monday")
  | "tuesday" => some (.weeks, some "tuesday")
  | "wednesday" => some (.weeks, some "wednesday")
  | "thursday" => some (.weeks, some "thursday")
  | "friday" => some (.weeks, some "friday")
  | "saturday" => some (.weeks, some "saturday")
  | "sunday" => some (.weeks, some "sunday")
  | _ => none

/-- `schedule.Job.at` unit validation: raises `ScheduleValueError` unless
the job's unit is days/hours/minutes or the job has a start day. -/
def atAllowed (u : ScheduleUnit) (startDay : Option String) : Bool :=
  match u with
  | .days => true
  | .hours => true
  | .minutes => true
  | _ => startDay.isSome

/-- The interval/time_spec dispatch of `create_recurring_reminder`:
`.ok (some rule)` when a job is built, `.ok none` when `job` stays `None`,
`.error` when `.at(time_spec)` raises `ScheduleValueError`. -/
def parseRecurringSpec (interval timeSpec : String) : Except PyError (Option RecurringRule) :=
  let lowered := pyToLower interval
  let bareCase : Except PyError (Option RecurringRule) :=
    match intervalMethods lowered with
    | some (u, sd) =>
      if timeSpec ≠ "" then
        if atAllowed u sd then .ok (some (.bare u sd (some timeSpec)))
        else .error .scheduleValueError
      else .ok (some (.bare u sd none))
    | none => .ok none
  match pySplitWs lowered with
  | [a, b] =>
    if pyIsDigit a then
      let unit := pyStripS b
      match countedUnit unit with
      | some u => .ok (some (.counted (pyInt a) u))
      | none => .ok none
    else bareCase
  | _ => bareCase

/-- Build the `schedule` job a `RecurringRule` registers. -/
def jobOfRule (now : Int) (rule : RecurringRule) (tags : List String)
    (action : JobAction) : Job :=
  match rule with
  | .counted n u =>
    { interval := (n : Int), unit := u, startDay := none, atTime := none,
      nextRun := now + (n : Int) * unitSeconds u, tags := tags, action := action }
  | .bare u sd at? =>
    { interval := 1, unit := u, startDay := sd, atTime := at?,
      nextRun := now + unitSeconds u, tags := tags, action := action }

/-- `ReminderService.create_recurring_reminder` from
`tools/reminder/service.py`.  Returns `.error` when
`schedule.Job.at` raises (a bare seconds-unit job given a non-empty
`time_spec`); the exception is not caught in the source. -/
def create_recurring_reminder (hasCallback storeOk : Bool) (st : ServiceState)
    (message : String) (reminderId : Option String) (freshId : String)
    (interval : Option String) (timeSpec : String) (now : Int) :
    Except PyError ((Option String × Option Job) × ServiceState × List Event) :=
  if !hasCallback || (match interval with | none => true | some s => decide (s = "")) then
    .ok ((none, none), st, [])
  else
    let intv := interval.getD ""
    let rid := pyOrElse reminderId freshId
    let displayInterval := pyToLower intv
    match parseRecurringSpec intv timeSpec with
    | .error e => .error e
    | .ok none => .ok ((some rid, none), st, [])
    | .ok (some rule) =>
      let job := jobOfRule now rule ["recurring", rid]
        (.recurring message rid displayInterval timeSpec)
      let st1 := { st with jobs := st.jobs ++ [job] }
      if storeOk then
        .ok ((some rid, some job),
             upsertRecurring st1
               { id := rid, message := message, interval := intv,
                 timeSpec := timeSpec, createdAt := now },
             [.registerJob rid, .storeWriteRecurring rid])
      else
        .ok ((some rid, some job), st1, [.registerJob rid, .storeWriteFailed rid])

/-- `ReminderService.delete_one_time_reminder`: clears the schedule tag,
then deletes the row; `success` reflects only whether the SQL raised. -/
def delete_one_time_reminder (storeOk : Bool) (st : ServiceState) (reminderId : String) :
    Bool × ServiceState × List Event :=
  let st1 := { st with jobs := scheduleClear reminderId st.jobs }
  if storeOk then
    (true,
     { st1 with oneTimeRows := st1.oneTimeRows.filter (fun r => !(r.id = reminderId)) },
     [.clearSchedule reminderId, .storeDeleteOneTime reminderId])
  else
    (false, st1, [.clearSchedule reminderId, .storeDeleteFailed reminderId])

/-- `ReminderService.delete_recurring_reminder`: same shape for the
recurring table. -/
def delete_recurring_reminder (storeOk : Bool) (st : ServiceState) (reminderId : String) :
    Bool × ServiceState × List Event :=
  let st1 := { st with jobs := scheduleClear reminderId st.jobs }
  if storeOk then
    (true,
     { st1 with recurringRows := st1.recurringRows.filter (fun r => !(r.id = reminderId)) },
     [.clearSchedule reminderId, .storeDeleteRecurring reminderId])
  else
    (false, st1, [.clearSchedule reminderId, .storeDeleteFailed reminderId])

/-- `ReminderService.stop`: signals the thread and runs `schedule.clear()`,
emptying the in-memory job list (the tables are untouched). -/
def stopService (st : ServiceState) : ServiceState :=
  { st with jobs := [] }

/-- One iteration of the row loop of
`ReminderService._load_one_time_reminders`: parse `due_time` (raising
`ValueError` on an unparseable string), then either re-create the reminder
with its original id and `seconds_until_due` (no `due_time` argument, so
no store write), or — if already due — deliver the formatted message once
and delete the row. -/
def loadOneTimeStep (storeOk : Bool) (now : Int) (st : ServiceState) (r : OneTimeRow) :
    Except PyError (ServiceState × List Event) :=
  match r.dueTime with
  | none => .error .valueError
  | some due =>
    if now < due then
      let res := create_one_time_reminder true storeOk st r.message (some r.id) r.id
        (some (due - now)) .pyNone now
      .ok (res.2.1, res.2.2)
    else
      let ev := Event.deliver r.id (oneTimeFormat r.message)
      let res := delete_one_time_reminder storeOk st r.id
      .ok (res.2.1, ev :: res.2.2)

/-- The row loop of `_load_one_time_reminders` over the `fetchall()`
snapshot. -/
def loadOneTimeAux (storeOk : Bool) (now : Int) :
    ServiceState → List OneTimeRow → Except PyError (ServiceState × List Event)
  | st, [] => .ok (st, [])
  | st, r :: rs =>
    match loadOneTimeStep storeOk now st r with
    | .error e => .error e
    | .ok (st1, evs1) =>
      match loadOneTimeAux storeOk now st1 rs with
      | .error e => .error e
      | .ok (st2, evs2) => .ok (st2, evs1 ++ evs2)

/-- One iteration of the row loop of `_load_recurring_reminders`:
re-create the recurring reminder with its original id (passing the stored
interval and time_spec; a NULL time_spec becomes `""`, which coincides
with the empty string here).  The generated-uuid fallback id is only
consulted for an empty row id, which rows written by
`create_recurring_reminder` never have; the row id stands in for it. -/
def loadRecurringStep (storeOk : Bool) (now : Int) (st : ServiceState) (r : RecurringRow) :
    Except PyError (ServiceState × List Event) :=
  match create_recurring_reminder true storeOk st r.message (some r.id) r.id
      (some r.interval) r.timeSpec now with
  | .error e => .error e
  | .ok res => .ok (res.2.1, res.2.2)

/-- The row loop of `_load_recurring_reminders` over the `fetchall()`
snapshot. -/
def loadRecurringAux (storeOk : Bool) (now : Int) :
    ServiceState → List RecurringRow → Except PyError (ServiceState × List Event)
  | st, [] => .ok (st, [])
  | st, r :: rs =>
    match loadRecurringStep storeOk now st r with
    | .error e => .error e
    | .ok (st1, evs1) =>
      match loadRecurringAux storeOk now st1 rs with
      | .error e => .error e
      | .ok (st2, evs2) => .ok (st2, evs1 ++ evs2)

/-- `ReminderService._load_reminders` (invoked by `start`): a no-op
without a callback, otherwise reload one-time then recurring reminders
(`datetime.now()` is modelled by a single `now` for the whole reload). -/
def load_reminders (hasCallback storeOk : Bool) (st : ServiceState) (now : Int) :
    Except PyError (ServiceState × List Event) :=
  if !hasCallback then .ok (st, [])
  else
    match loadOneTimeAux storeOk now st st.oneTimeRows with
    | .error e => .error e
    | .ok (st1, evs1) =>
      match loadRecurringAux storeOk now st1 st1.recurringRows with
      | .error e => .error e
      | .ok (st2, evs2) => .ok (st2, evs1 ++ evs2)

/-- The `interval` keyword bound in the job's closure (`''` default). -/
def Job.intervalKw (j : Job) : String :=
  match j.action with
  | .recurring _ _ d _ => d
  | _ => ""

/-- The `time_spec` keyword bound in the job's closure (`''` default). -/
def Job.timeSpecKw (j : Job) : String :=
  match j.action with
  | .recurring _ _ _ t => t
  | _ => ""

/-- The `cancel_reminder` agent tool from
`tools/reminder/reminder_tool.py`: looks the jobs up by tag via
`schedule.get_jobs(reminder_id)` and, when found, runs
`schedule.clear(reminder_id)`.  The durable store is not touched. -/
def cancel_reminder (st : ServiceState) (reminderId : String) : String × ServiceState :=
  let jobs := st.jobs.filter (fun j => j.tags.contains reminderId)
  match jobs with
  | [] => ("Could not find reminder with ID " ++ reminderId ++ ".", st)
  | j :: _ =>
    let message := j.msg
    let isRecurring := j.tags.contains "recurring"
    let scheduleInfo :=
      if j.timeSpecKw ≠ "" then j.intervalKw ++ " at " ++ j.timeSpecKw else j.intervalKw
    let st' := { st with jobs := scheduleClear reminderId st.jobs }
    if isRecurring then
      ("Recurring reminder '" ++ message ++ "' (" ++ scheduleInfo ++ ") " ++
       "(ID: " ++ reminderId ++ ") has been cancelled.", st')
    else
      ("One-time reminder '" ++ message ++ "' (ID: " ++ reminderId ++ ") " ++
       "has been cancelled.", st')

/-- The `set_reminder` agent tool from `tools/reminder/reminder_tool.py`:
parse `due_time`; for a future time register a tagged one-shot job, for a
past or present time invoke the callback immediately; never touches the
store.  `dueRaw` is the original string (echoed in the result),
`dueParsed` its `fromisoformat` result. -/
def set_reminder (st : ServiceState) (message : String) (dueRaw : String)
    (dueParsed : Option Int) (freshId : String) (now : Int) :
    String × ServiceState × List Event :=
  match dueParsed with
  | none =>
    ("Invalid time format. Please use ISO format (YYYY-MM-DD HH:MM:SS). " ++
     "Timezones are supported using the '+' or '-' offset format.", st, [])
  | some t =>
    if now < t then
      let job : Job :=
        { interval := t - now, unit := .seconds, startDay := none, atTime := none,
          nextRun := now + (t - now), tags := ["reminder", freshId],
          action := .oneTimeTool message freshId }
      ("One-time reminder set for " ++ dueRaw ++ ". (Reminder ID: " ++ freshId ++ ")",
       { st with jobs := st.jobs ++ [job] }, [.registerJob freshId])
    else
      ("One-time reminder set for " ++ dueRaw ++ ". (Reminder ID: " ++ freshId ++ ")",
       st, [.deliver freshId (oneTimeFormat message)])

/-- The reminder ids shown by the `get_reminders` tool: the
`reminder_id` keywords of the jobs tagged `'reminder'` followed by those
of the jobs tagged `'recurring'`. -/
def pendingReminderIds (st : ServiceState) : List String :=
  (st.jobs.filter (fun j => j.tags.contains "reminder")).map Job.rid ++
    (st.jobs.filter (fun j => j.tags.contains "recurring")).map Job.rid

/-- The text a job's action would hand to the delivery callback. -/
def jobDeliveryText (j : Job) : String :=
  match j.action with
  | .oneTime m _ => oneTimeFormat m
  | .oneTimeTool m _ => oneTimeFormat m
  | .recurring m _ d t => recurringFormat d t m

/-- Whether the delivery callback raises inside this job's action. -/
def jobFails (cbFails : String → Bool) (j : Job) : Bool :=
  cbFails (jobDeliveryText j)

/-- `Job._schedule_next_run` after a run: advance by the period. -/
def advanceJob (now : Int) (j : Job) : Job :=
  { j with nextRun := now + j.interval * unitSeconds j.unit }

/-- `Scheduler._run_job` for one job: run the bound closure (an exception
from the callback propagates — first component `true`), advance, and honor
a returned `CancelJob`.  The one-time closure of the service deletes its
row (and, via `schedule.clear`, itself) before returning `CancelJob`. -/
def runJob (now : Int) (cbFails : String → Bool) (storeOk : Bool)
    (st : ServiceState) (j : Job) : Bool × ServiceState × List Event :=
  match j.action with
  | .oneTime _ rid =>
    if jobFails cbFails j then (true, st, [.jobRaised rid])
    else
      let res := delete_one_time_reminder storeOk st rid
      let st1 := res.2.1
      let st2 := { st1 with
        jobs := (st1.jobs.replace j (advanceJob now j)).erase (advanceJob now j) }
      (false, st2, .deliver rid (jobDeliveryText j) :: res.2.2)
  | .oneTimeTool _ rid =>
    if jobFails cbFails j then (true, st, [.jobRaised rid])
    else
      let st1 := { st with
        jobs := (st.jobs.replace j (advanceJob now j)).erase (advanceJob now j) }
      (false, st1, [.deliver rid (jobDeliveryText j)])
  | .recurring _ rid _ _ =>
    if jobFails cbFails j then (true, st, [.jobRaised rid])
    else
      (false, { st with jobs := st.jobs.replace j (advanceJob now j) },
       [.deliver rid (jobDeliveryText j)])

/-- Run the snapshot of runnable jobs in order; an exception from any
job's closure aborts the remainder of the tick (there is no handler in
`Scheduler.run_pending` nor in `ReminderService._run_continuously`, so a
`true` first component means the scheduler thread terminates). -/
def runPendingAux (now : Int) (cbFails : String → Bool) (storeOk : Bool) :
    ServiceState → List Job → Bool × ServiceState × List Event
  | st, [] => (false, st, [])
  | st, j :: rest =>
    let res := runJob now cbFails storeOk st j
    if res.1 then (true, res.2.1, res.2.2)
    else
      let rec' := runPendingAux now cbFails storeOk res.2.1 rest
      (rec'.1, rec'.2.1, res.2.2 ++ rec'.2.2)

/-- The runnable snapshot of `Scheduler.run_pending`: jobs whose
`next_run` has elapsed, sorted by `next_run` (stable, like `sorted`). -/
def dueJobs (st : ServiceState) (now : Int) : List Job :=
  (st.jobs.filter (fun j => decide (j.nextRun ≤ now))).insertionSort
    (fun a b => a.nextRun ≤ b.nextRun)

/-- One tick of `ReminderService._run_continuously`:
`schedule.run_pending()`.  A `true` first component is an uncaught
exception escaping the loop body, i.e. the scheduler thread dies. -/
def run_pending (now : Int) (cbFails : String → Bool) (storeOk : Bool)
    (st : ServiceState) : Bool × ServiceState × List Event :=
  runPendingAux now cbFails storeOk st (dueJobs st now)

/-- The `(reminder id, text)` pairs delivered in a trace. -/
def deliveriesOf (evs : List Event) : List (String × String) :=
  evs.filterMap (fun e => match e with
    | .deliver i m => some (i, m)
    | _ => none)

/-- A recurring row whose `(interval, time_spec)` a fresh
`create_recurring_reminder` call would accept with a job. -/
def validRecurringSpec (interval timeSpec : String) : Bool :=
  match parseRecurringSpec interval timeSpec with
  | .ok (some _) => true
  | _ => false

/-- Modelled from the spec: the interval grammar of §4.3 — a bare unit
`second|minute|hour|day`, a weekday name, or `"<N> <unit>"` with `N` a
positive integer and unit a singular or plural of
`second|minute|hour|day|week` (case-insensitive). -/
def specIntervalGrammar (s : String) : Bool :=
  let lowered := pyToLower s
  lowered ∈ ["second", "minute", "hour", "day"] ||
  lowered ∈ ["monday", "tuesday", "wednesday", "thursday", "friday", "saturday", "sunday"] ||
  (match pySplitWs lowered with
   | [a, b] =>
     pyIsDigit a && decide (0 < pyInt a) &&
       b ∈ ["second", "seconds", "minute", "minutes", "hour", "hours",
            "day", "days", "week", "weeks"]
   | _ => false)

/-- A service state with empty tables and no scheduled jobs. -/
def emptyState : ServiceState := ⟨[], [], []⟩

/-- Whether a persisted one-time row is still due in the future at `now`
(the `due_time > now` test of `_load_one_time_reminders`). -/
def rowDueLater (now : Int) (r : OneTimeRow) : Bool :=
  match r.dueTime with
  | some due => decide (now < due)
  | none => false

/-- The job `_load_one_time_reminders` re-registers for a still-future
row (via `create_one_time_reminder` with the original id and
`seconds_until_due`). -/
def loadOneTimeJob (now : Int) (r : OneTimeRow) : Job :=
  { interval := r.dueTime.getD 0 - now, unit := .seconds, startDay := none, atTime := none,
    nextRun := now + (r.dueTime.getD 0 - now), tags := ["reminder", r.id],
    action := .oneTime r.message r.id }

/-- Sequential deletion of rows by id, in order (the effect of the
`delete_one_time_reminder` calls performed during a reload). -/
def removeRowIds : List String → List OneTimeRow → List OneTimeRow
  | [], l => l
  | i :: is, l => removeRowIds is (l.filter (fun r => !(r.id = i)))

/-- The one-shot job `create_one_time_reminder` registers:
`schedule.every(s).seconds.do(reminder_job, ...)` tagged
`('reminder', rid)`. -/
def oneTimeJobOf (message rid : String) (s now : Int) : Job :=
  { interval := s, unit := .seconds, startDay := none, atTime := none,
    nextRun := now + s, tags := ["reminder", rid], action := .oneTime message rid }

/-- Claim C1 (counterexample): after creating a one-time reminder
(id `"r1"`, due at 100, created at 0) and cancelling it through the
`cancel_reminder` tool, the job is gone from the schedule but the row is
still present in the durable store — the claim's "the corresponding row
is absent from the store" is false. -/
theorem claim_C1_counterexample :
    (cancel_reminder (create_one_time_reminder true true emptyState "m" none "r1" none
        (.str (some 100)) 0).2.1 "r1").2.jobs = [] ∧
    (cancel_reminder (create_one_time_reminder true true emptyState "m" none "r1" none
        (.str (some 100)) 0).2.1 "r1").2.oneTimeRows =
      [{ id := "r1", message := "m", dueTime := some 100, createdAt := 0 }] := by
  decide

/-- Claim C2 (counterexample): with the store failing,
`create_one_time_reminder` still registers the job and still returns
`(id, job)` — no failure indicator — and with the store working the
trace shows the job registration happening before the store write, not
after it. -/
theorem claim_C2_counterexample :
    create_one_time_reminder true false emptyState "m" none "r1" none
        (.str (some 100)) 0 =
      ((some "r1",
        some { interval := 100, unit := .seconds, startDay := none, atTime := none,
               nextRun := 100, tags := ["reminder", "r1"],
               action := .oneTime "m" "r1" }),
       { oneTimeRows := [], recurringRows := [],
         jobs := [{ interval := 100, unit := .seconds, startDay := none, atTime := none,
                    nextRun := 100, tags := ["reminder", "r1"],
                    action := .oneTime "m" "r1" }] },
       [.registerJob "r1", .storeWriteFailed "r1"]) ∧
    (create_one_time_reminder true true emptyState "m" none "r1" none
        (.str (some 100)) 0).2.2 =
      [.registerJob "r1", .storeWriteOneTime "r1"] := by
  decide

/-- Claim C3 (counterexample): for a due time (-5) at or before now (0),
`create_one_time_reminder` does not invoke the delivery callback (no
`deliver` event) and does register a scheduled job (with non-positive
delay), contradicting "invokes the delivery callback immediately …
registers no scheduled job". -/
theorem claim_C3_counterexample :
    create_one_time_reminder true true emptyState "m" none "r1" none
        (.str (some (-5))) 0 =
      ((some "r1",
        some { interval := -5, unit := .seconds, startDay := none, atTime := none,
               nextRun := -5, tags := ["reminder", "r1"],
               action := .oneTime "m" "r1" }),
       { oneTimeRows := [], recurringRows := [],
         jobs := [{ interval := -5, unit := .seconds, startDay := none, atTime := none,
                    nextRun := -5, tags := ["reminder", "r1"],
                    action := .oneTime "m" "r1" }] },
       [.registerJob "r1"]) := by
  decide

/-- Claim C4 (counterexample): two recurring jobs are due in the same
tick; the first one's delivery callback raises.  `run_pending` ends with
the exception escaping (first component `true`, so the scheduler thread
dies) and the second due job never fires (its delivery is absent from the
trace), contradicting "the exception is caught … every other job due in
the same tick still fires". -/
theorem claim_C4_counterexample :
    run_pending 5 (fun m => m == "🔄 RECURRING REMINDER (day): x") true
      { oneTimeRows := [], recurringRows := [],
        jobs := [{ interval := 1, unit := .days, startDay := none, atTime := none,
                   nextRun := 0, tags := ["recurring", "a"],
                   action := .recurring "x" "a" "day" "" },
                 { interval := 1, unit := .days, startDay := none, atTime := none,
                   nextRun := 1, tags := ["recurring", "b"],
                   action := .recurring "y" "b" "day" "" }] } =
      (true,
       { oneTimeRows := [], recurringRows := [],
         jobs := [{ interval := 1, unit := .days, startDay := none, atTime := none,
                    nextRun := 0, tags := ["recurring", "a"],
                    action := .recurring "x" "a" "day" "" },
                  { interval := 1, unit := .days, startDay := none, atTime := none,
                    nextRun := 1, tags := ["recurring", "b"],
                    action := .recurring "y" "b" "day" "" }] },
       [.jobRaised "a"]) := by
  decide

/-- Claim C6 (counterexample): `create_recurring_reminder` with interval
`"2 weeks"` (unit week, N = 2) does not succeed: it returns a `none` job
and neither persists nor schedules anything. -/
theorem claim_C6_counterexample :
    create_recurring_reminder true true emptyState "m" none "r1" (some "2 weeks") "" 0 =
      .ok ((some "r1", none), emptyState, []) := by
  decide

/-- Claim C7 (counterexample): a non-empty `time_spec` (`"10:30"`) with
the counted interval `"2 hours"` (not one of day/weekday/hour/minute) is
not rejected: the job is created (with no `at` constraint) and the row is
persisted with the incompatible `time_spec`. -/
theorem claim_C7_counterexample :
    create_recurring_reminder true true emptyState "m" none "r1" (some "2 hours") "10:30" 0 =
      .ok ((some "r1",
            some { interval := 2, unit := .hours, startDay := none, atTime := none,
                   nextRun := 7200, tags := ["recurring", "r1"],
                   action := .recurring "m" "r1" "2 hours" "10:30" }),
           { oneTimeRows := [],
             recurringRows := [{ id := "r1", message := "m", interval := "2 hours",
                                 timeSpec := "10:30", createdAt := 0 }],
             jobs := [{ interval := 2, unit := .hours, startDay := none, atTime := none,
                        nextRun := 7200, tags := ["recurring", "r1"],
                        action := .recurring "m" "r1" "2 hours" "10:30" }] },
           [.registerJob "r1", .storeWriteRecurring "r1"]) := by
  decide

/-- Claim C8 (counterexample): `"0 hours"` does not match the spec's
grammar (N must be a positive integer), yet `create_recurring_reminder`
accepts it: a job is registered and a row is written, so the rejection
claimed for every non-grammar string is false. -/
theorem claim_C8_counterexample :
    specIntervalGrammar "0 hours" = false ∧
    create_recurring_reminder true true emptyState "m" none "r1" (some "0 hours") "" 0 =
      .ok ((some "r1",
            some { interval := 0, unit := .hours, startDay := none, atTime := none,
                   nextRun := 0, tags := ["recurring", "r1"],
                   action := .recurring "m" "r1" "0 hours" "" }),
           { oneTimeRows := [],
             recurringRows := [{ id := "r1", message := "m", interval := "0 hours",
                                 timeSpec := "", createdAt := 0 }],
             jobs := [{ interval := 0, unit := .hours, startDay := none, atTime := none,
                        nextRun := 0, tags := ["recurring", "r1"],
                        action := .recurring "m" "r1" "0 hours" "" }] },
           [.registerJob "r1", .storeWriteRecurring "r1"]) := by
  constructor
  · decide
  · decide

/-- Claim C9 (counterexample): deleting an id that has no row (the store
is empty) returns `true`, not `false`: the return value does not report
whether a row was actually removed. -/
theorem claim_C9_counterexample :
    (delete_one_time_reminder true emptyState "ghost").1 = true ∧
    (delete_recurring_reminder true emptyState "ghost").1 = true ∧
    emptyState.oneTimeRows = [] ∧ emptyState.recurringRows = [] := by
  decide

/-- Helper: the interval dispatch resolves a counted interval. -/
theorem parseRecurringSpec_eq_counted (s ts numStr unitStr : String) (u : ScheduleUnit)
    (hsplit : pySplitWs (pyToLower s) = [numStr, unitStr])
    (hd : pyIsDigit numStr = true)
    (hu : countedUnit (pyStripS unitStr) = some u) :
    parseRecurringSpec s ts = .ok (some (.counted (pyInt numStr) u)) := by
  simp only [parseRecurringSpec, hsplit, hd, if_true, hu]

/-- Helper: a successful dispatch makes `create_recurring_reminder`
register the corresponding job, tag it, and upsert the row (or swallow
the write failure), in that order. -/
theorem create_recurring_eq_of_parse_some (storeOk : Bool) (st : ServiceState)
    (message : String) (reminderId : Option String) (freshId s ts : String) (now : Int)
    (rule : RecurringRule) (hs : s ≠ "")
    (hp : parseRecurringSpec s ts = .ok (some rule)) :
    create_recurring_reminder true storeOk st message reminderId freshId (some s) ts now =
      (let rid := pyOrElse reminderId freshId
       let job := jobOfRule now rule ["recurring", rid]
         (.recurring message rid (pyToLower s) ts)
       let st1 := { st with jobs := st.jobs ++ [job] }
       if storeOk then
         .ok ((some rid, some job),
              upsertRecurring st1
                { id := rid, message := message, interval := s, timeSpec := ts,
                  createdAt := now },
              [.registerJob rid, .storeWriteRecurring rid])
       else
         .ok ((some rid, some job), st1, [.registerJob rid, .storeWriteFailed rid])) := by
  simp only [create_recurring_reminder, Option.getD_some, hp]
  simp [hs]

/-- Helper: a dispatch that leaves `job = None` makes
`create_recurring_reminder` return the id with a `none` job and no side
effects. -/
theorem create_recurring_eq_of_parse_none (storeOk : Bool) (st : ServiceState)
    (message : String) (reminderId : Option String) (freshId s ts : String) (now : Int)
    (hs : s ≠ "") (hp : parseRecurringSpec s ts = .ok none) :
    create_recurring_reminder true storeOk st message reminderId freshId (some s) ts now =
      .ok ((some (pyOrElse reminderId freshId), none), st, []) := by
  simp only [create_recurring_reminder, Option.getD_some, hp]
  simp [hs]

/-- Helper: a dispatch that raises propagates the exception out of
`create_recurring_reminder`. -/
theorem create_recurring_eq_of_parse_error (storeOk : Bool) (st : ServiceState)
    (message : String) (reminderId : Option String) (freshId s ts : String) (now : Int)
    (e : PyError) (hs : s ≠ "") (hp : parseRecurringSpec s ts = .error e) :
    create_recurring_reminder true storeOk st message reminderId freshId (some s) ts now =
      .error e := by
  simp only [create_recurring_reminder, Option.getD_some, hp]
  simp [hs]

/-- Helper: a counted interval whose unit is not second/minute/hour/day
leaves `job = None` in the dispatch. -/
theorem parseRecurringSpec_counted_invalid (s ts numStr unitStr : String)
    (hsplit : pySplitWs (pyToLower s) = [numStr, unitStr])
    (hd : pyIsDigit numStr = true)
    (hu : countedUnit (pyStripS unitStr) = none) :
    parseRecurringSpec s ts = .ok none := by
  simp only [parseRecurringSpec, hsplit, hd, if_true, hu]

/-- Helper: a bare `"second"` interval together with a non-empty
`time_spec` makes `schedule.Job.at` raise. -/
theorem parseRecurringSpec_second_at (s ts : String) (hlow : pyToLower s = "second")
    (hts : ts ≠ "") : parseRecurringSpec s ts = .error .scheduleValueError := by
  simp only [parseRecurringSpec, hlow]
  rw [show pySplitWs "second" = ["second"] from by decide]
  simp [hts, intervalMethods, atAllowed]

/-- Claim C6 (amended): a counted interval `"<N> <unit>"` (any casing,
`N` a positive digit string) succeeds and schedules a job recurring every
`N` units, and the row is persisted — but only for units
second/minute/hour/day (singular or plural); the unit week, although part
of the spec grammar, is rejected with a `none` job and no side effects. -/
theorem claim_C6_amended :
    (∀ (st : ServiceState) (message freshId s numStr unitStr : String) (now : Int),
      pySplitWs (pyToLower s) = [numStr, unitStr] →
      pyIsDigit numStr = true →
      0 < pyInt numStr →
      unitStr ∈ (["second", "seconds", "minute", "minutes",
                   "hour", "hours", "day", "days"] : List String) →
      ∃ u, countedUnit (pyStripS unitStr) = some u ∧
        create_recurring_reminder true true st message none freshId (some s) "" now =
          .ok ((some freshId,
                some (jobOfRule now (.counted (pyInt numStr) u) ["recurring", freshId]
                  (.recurring message freshId (pyToLower s) ""))),
               upsertRecurring
                 { st with jobs := st.jobs ++ [jobOfRule now (.counted (pyInt numStr) u)
                     ["recurring", freshId] (.recurring message freshId (pyToLower s) "")] }
                 { id := freshId, message := message, interval := s, timeSpec := "",
                   createdAt := now },
               [.registerJob freshId, .storeWriteRecurring freshId])) ∧
    (∀ (st : ServiceState) (message freshId s numStr unitStr : String) (now : Int),
      pySplitWs (pyToLower s) = [numStr, unitStr] →
      pyIsDigit numStr = true →
      unitStr ∈ (["week", "weeks"] : List String) →
      create_recurring_reminder true true st message none freshId (some s) "" now =
        .ok ((some freshId, none), st, [])) := by
  constructor
  · intro st message freshId s numStr unitStr now hsplit hdigit _hpos hunit
    have hs : s ≠ "" := by
      rintro rfl
      rw [show pySplitWs (pyToLower "") = [] from by decide] at hsplit
      exact List.noConfusion hsplit
    fin_cases hunit
    case _ =>
      exact ⟨.seconds, by decide, by
        rw [create_recurring_eq_of_parse_some true st message none freshId s "" now
          (.counted (pyInt numStr) .seconds) hs
          (parseRecurringSpec_eq_counted s "" numStr "second" .seconds hsplit hdigit
            (by decide))]
        rfl⟩
    case _ =>
      exact ⟨.seconds, by decide, by
        rw [create_recurring_eq_of_parse_some true st message none freshId s "" now
          (.counted (pyInt numStr) .seconds) hs
          (parseRecurringSpec_eq_counted s "" numStr "seconds" .seconds hsplit hdigit
            (by decide))]
        rfl⟩
    case _ =>
      exact ⟨.minutes, by decide, by
        rw [create_recurring_eq_of_parse_some true st message none freshId s "" now
          (.counted (pyInt numStr) .minutes) hs
          (parseRecurringSpec_eq_counted s "" numStr "minute" .minutes hsplit hdigit
            (by decide))]
        rfl⟩
    case _ =>
      exact ⟨.minutes, by decide, by
        rw [create_recurring_eq_of_parse_some true st message none freshId s "" now
          (.counted (pyInt numStr) .minutes) hs
          (parseRecurringSpec_eq_counted s "" numStr "minutes" .minutes hsplit hdigit
            (by decide))]
        rfl⟩
    case _ =>
      exact ⟨.hours, by decide, by
        rw [create_recurring_eq_of_parse_some true st message none freshId s "" now
          (.counted (pyInt numStr) .hours) hs
          (parseRecurringSpec_eq_counted s "" numStr "hour" .hours hsplit hdigit
            (by decide))]
        rfl⟩
    case _ =>
      exact ⟨.hours, by decide, by
        rw [create_recurring_eq_of_parse_some true st message none freshId s "" now
          (.counted (pyInt numStr) .hours) hs
          (parseRecurringSpec_eq_counted s "" numStr "hours" .hours hsplit hdigit
            (by decide))]
        rfl⟩
    case _ =>
      exact ⟨.days, by decide, by
        rw [create_recurring_eq_of_parse_some true st message none freshId s "" now
          (.counted (pyInt numStr) .days) hs
          (parseRecurringSpec_eq_counted s "" numStr "day" .days hsplit hdigit
            (by decide))]
        rfl⟩
    case _ =>
      exact ⟨.days, by decide, by
        rw [create_recurring_eq_of_parse_some true st message none freshId s "" now
          (.counted (pyInt numStr) .days) hs
          (parseRecurringSpec_eq_counted s "" numStr "days" .days hsplit hdigit
            (by decide))]
        rfl⟩
  · intro st message freshId s numStr unitStr now hsplit hdigit hunit
    have hs : s ≠ "" := by
      rintro rfl
      rw [show pySplitWs (pyToLower "") = [] from by decide] at hsplit
      exact List.noConfusion hsplit
    fin_cases hunit
    case _ =>
      rw [create_recurring_eq_of_parse_none true st message none freshId s "" now hs
        (parseRecurringSpec_counted_invalid s "" numStr "week" hsplit hdigit (by decide))]
      rfl
    case _ =>
      rw [create_recurring_eq_of_parse_none true st message none freshId s "" now hs
        (parseRecurringSpec_counted_invalid s "" numStr "weeks" hsplit hdigit (by decide))]
      rfl

/-- Claim C6 (witness): `"2 Hours"` is accepted as every-2-hours (and the
row is written), while `"3 weeks"` is rejected with a `none` job. -/
theorem claim_C6_witness :
    (pySplitWs (pyToLower "2 Hours") = ["2", "hours"] ∧ pyIsDigit "2" = true ∧
      0 < pyInt "2" ∧
      "hours" ∈ (["second", "seconds", "minute", "minutes",
                   "hour", "hours", "day", "days"] : List String)) ∧
    (∃ u, countedUnit (pyStripS "hours") = some u ∧
      create_recurring_reminder true true emptyState "m" none "r6" (some "2 Hours") "" 0 =
        .ok ((some "r6",
              some (jobOfRule 0 (.counted (pyInt "2") u) ["recurring", "r6"]
                (.recurring "m" "r6" (pyToLower "2 Hours") ""))),
             upsertRecurring
               { emptyState with jobs := emptyState.jobs ++ [jobOfRule 0 (.counted (pyInt "2") u)
                   ["recurring", "r6"] (.recurring "m" "r6" (pyToLower "2 Hours") "")] }
               { id := "r6", message := "m", interval := "2 Hours", timeSpec := "",
                 createdAt := 0 },
             [.registerJob "r6", .storeWriteRecurring "r6"])) ∧
    create_recurring_reminder true true emptyState "m" none "r6" (some "3 weeks") "" 0 =
      .ok ((some "r6", none), emptyState, []) :=
  ⟨⟨by decide, by decide, by decide, by decide⟩,
   claim_C6_amended.1 emptyState "m" "r6" "2 Hours" "2" "hours" 0
     (by decide) (by decide) (by decide) (by decide),
   claim_C6_amended.2 emptyState "m" "r6" "3 weeks" "3" "weeks" 0
     (by decide) (by decide) (by decide)⟩

/-- Claim C7 (amended): for a counted interval (not one of
day/weekday/hour/minute) a non-empty `time_spec` is not rejected: the job
is registered without any `at` constraint (the `time_spec` is only kept
as display metadata and persisted in the row); and for the bare
`"second"` interval a non-empty `time_spec` makes `schedule.Job.at` raise
`ScheduleValueError` — an exception, not a failure indicator — with
nothing persisted or scheduled. -/
theorem claim_C7_amended :
    (∀ (st : ServiceState) (message freshId s ts numStr unitStr : String)
       (u : ScheduleUnit) (now : Int),
      ts ≠ "" →
      pySplitWs (pyToLower s) = [numStr, unitStr] →
      pyIsDigit numStr = true →
      countedUnit (pyStripS unitStr) = some u →
      create_recurring_reminder true true st message none freshId (some s) ts now =
        .ok ((some freshId,
              some (jobOfRule now (.counted (pyInt numStr) u) ["recurring", freshId]
                (.recurring message freshId (pyToLower s) ts))),
             upsertRecurring
               { st with jobs := st.jobs ++ [jobOfRule now (.counted (pyInt numStr) u)
                   ["recurring", freshId] (.recurring message freshId (pyToLower s) ts)] }
               { id := freshId, message := message, interval := s, timeSpec := ts,
                 createdAt := now },
             [.registerJob freshId, .storeWriteRecurring freshId]) ∧
      (jobOfRule now (.counted (pyInt numStr) u) ["recurring", freshId]
        (.recurring message freshId (pyToLower s) ts)).atTime = none) ∧
    (∀ (st : ServiceState) (message freshId s ts : String) (now : Int),
      ts ≠ "" → pyToLower s = "second" →
      create_recurring_reminder true true st message none freshId (some s) ts now =
        .error .scheduleValueError) := by
  constructor
  · intro st message freshId s ts numStr unitStr u now _hts hsplit hdigit hu
    have hs : s ≠ "" := by
      rintro rfl
      rw [show pySplitWs (pyToLower "") = [] from by decide] at hsplit
      exact List.noConfusion hsplit
    refine ⟨?_, by cases u <;> rfl⟩
    rw [create_recurring_eq_of_parse_some true st message none freshId s ts now
      (.counted (pyInt numStr) u) hs
      (parseRecurringSpec_eq_counted s ts numStr unitStr u hsplit hdigit hu)]
    rfl
  · intro st message freshId s ts now hts hlow
    have hs : s ≠ "" := by
      rintro rfl
      rw [show pyToLower "" = "" from rfl] at hlow
      exact absurd hlow (by decide)
    exact create_recurring_eq_of_parse_error true st message none freshId s ts now
      .scheduleValueError hs (parseRecurringSpec_second_at s ts hlow hts)

/-- Claim C7 (witness): `"3 minutes"` with `time_spec ":45"` is accepted
(job registered, `at` unconstrained, row persisted), while `"second"`
with `":30"` raises. -/
theorem claim_C7_witness :
    ((":45" : String) ≠ "" ∧ pySplitWs (pyToLower "3 minutes") = ["3", "minutes"] ∧
      pyIsDigit "3" = true ∧ countedUnit (pyStripS "minutes") = some .minutes) ∧
    (create_recurring_reminder true true emptyState "m" none "r7" (some "3 minutes") ":45" 0 =
        .ok ((some "r7",
              some (jobOfRule 0 (.counted (pyInt "3") .minutes) ["recurring", "r7"]
                (.recurring "m" "r7" (pyToLower "3 minutes") ":45"))),
             upsertRecurring
               { emptyState with jobs := emptyState.jobs ++
                   [jobOfRule 0 (.counted (pyInt "3") .minutes)
                     ["recurring", "r7"] (.recurring "m" "r7" (pyToLower "3 minutes") ":45")] }
               { id := "r7", message := "m", interval := "3 minutes", timeSpec := ":45",
                 createdAt := 0 },
             [.registerJob "r7", .storeWriteRecurring "r7"]) ∧
      (jobOfRule 0 (.counted (pyInt "3") .minutes) ["recurring", "r7"]
        (.recurring "m" "r7" (pyToLower "3 minutes") ":45")).atTime = none) ∧
    create_recurring_reminder true true emptyState "m" none "r7" (some "second") ":30" 0 =
      .error .scheduleValueError :=
  ⟨⟨by decide, by decide, by decide, by decide⟩,
   claim_C7_amended.1 emptyState "m" "r7" "3 minutes" ":45" "3" "minutes" .minutes 0
     (by decide) (by decide) (by decide) (by decide),
   claim_C7_amended.2 emptyState "m" "r7" "second" ":30" 0 (by decide) (by decide)⟩

/-- Claim C8 (amended): every interval string the dispatch rejects —
neither a bare unit/weekday name nor `"<N> <unit>"` with `N` a digit
string and unit a (possibly plural) second/minute/hour/day — yields a
`none` job as failure indicator with the store and the schedule
unchanged (the empty interval yields `(None, None)`).  The accepted set
differs from the spec grammar at the margin: `N = 0` is accepted and
`"<N> week(s)"` is rejected. -/
theorem claim_C8_amended :
    (∀ (storeOk : Bool) (st : ServiceState) (message freshId s ts : String) (now : Int),
      s ≠ "" →
      parseRecurringSpec s ts = .ok none →
      create_recurring_reminder true storeOk st message none freshId (some s) ts now =
        .ok ((some freshId, none), st, [])) ∧
    (∀ (storeOk : Bool) (st : ServiceState) (message freshId ts : String) (now : Int),
      create_recurring_reminder true storeOk st message none freshId (some "") ts now =
        .ok ((none, none), st, [])) := by
  constructor
  · intro storeOk st message freshId s ts now hs hp
    rw [create_recurring_eq_of_parse_none storeOk st message none freshId s ts now hs hp]
    rfl
  · intro storeOk st message freshId ts now
    rfl

/-- Claim C8 (witness): the spec's example `"fortnight"` is rejected by
the dispatch and `create_recurring_reminder` returns a `none` job leaving
the state unchanged. -/
theorem claim_C8_witness :
    (("fortnight" : String) ≠ "" ∧ parseRecurringSpec "fortnight" "" = .ok none) ∧
    create_recurring_reminder true true emptyState "m" none "r8" (some "fortnight") "" 0 =
      .ok ((some "r8", none), emptyState, []) :=
  ⟨⟨by decide, by decide⟩,
   claim_C8_amended.1 true emptyState "m" "r8" "fortnight" "" 0 (by decide) (by decide)⟩

/-- Claim C2 (amended): for a future due time, `create_one_time_reminder`
registers the job in the schedule before attempting the store write; if
the write fails, the `sqlite3.Error` is swallowed: the job stays
registered, no failure indicator is returned — the result is `(id, job)`
exactly as on success — and the tables are unchanged, so the schedule and
the store diverge. -/
theorem claim_C2_amended (storeOk : Bool) (st : ServiceState) (message freshId : String)
    (t now : Int) (h : 0 < t - now) :
    (create_one_time_reminder true storeOk st message none freshId none
        (.str (some t)) now).1 =
      (some freshId, some (oneTimeJobOf message freshId (t - now) now)) ∧
    (create_one_time_reminder true storeOk st message none freshId none
        (.str (some t)) now).2.1.jobs =
      st.jobs ++ [oneTimeJobOf message freshId (t - now) now] ∧
    (create_one_time_reminder true storeOk st message none freshId none
        (.str (some t)) now).2.2 =
      [Event.registerJob freshId,
       if storeOk then Event.storeWriteOneTime freshId else Event.storeWriteFailed freshId] ∧
    (storeOk = false →
      (create_one_time_reminder true storeOk st message none freshId none
          (.str (some t)) now).2.1 =
        { st with jobs := st.jobs ++ [oneTimeJobOf message freshId (t - now) now] }) := by
  cases storeOk <;>
    simp [create_one_time_reminder, pyOrElse, DueArg.truthy, DueArg.parsed, h,
      oneTimeJobOf, upsertOneTime, apply_ite ServiceState.jobs]

/-- Claim C2 (witness): concrete instance with a failing store at due
time 100, now 0. -/
theorem claim_C2_witness :
    ((0 : Int) < 100 - 0) ∧
    ((create_one_time_reminder true false emptyState "m" none "r2" none
        (.str (some 100)) 0).1 =
      (some "r2", some (oneTimeJobOf "m" "r2" (100 - 0) 0)) ∧
    (create_one_time_reminder true false emptyState "m" none "r2" none
        (.str (some 100)) 0).2.1.jobs =
      emptyState.jobs ++ [oneTimeJobOf "m" "r2" (100 - 0) 0] ∧
    (create_one_time_reminder true false emptyState "m" none "r2" none
        (.str (some 100)) 0).2.2 =
      [Event.registerJob "r2",
       if false then Event.storeWriteOneTime "r2" else Event.storeWriteFailed "r2"] ∧
    (false = false →
      (create_one_time_reminder true false emptyState "m" none "r2" none
          (.str (some 100)) 0).2.1 =
        { emptyState with jobs := emptyState.jobs ++ [oneTimeJobOf "m" "r2" (100 - 0) 0] })) :=
  ⟨by decide, claim_C2_amended false emptyState "m" "r2" 100 0 (by decide)⟩

/-- Claim C3 (amended): for a due time at or before now,
`create_one_time_reminder` does not invoke the delivery callback
synchronously: it registers a one-shot job with non-positive delay
(delivered only on a later scheduler tick), writes no row, and returns
the generated id; the `set_reminder` tool, by contrast, delivers
immediately for a past or present time without registering a job and
without touching the store. -/
theorem claim_C3_amended (storeOk : Bool) (st : ServiceState)
    (message freshId dueRaw : String) (t now : Int) (h : t ≤ now) :
    create_one_time_reminder true storeOk st message none freshId none
        (.str (some t)) now =
      ((some freshId, some (oneTimeJobOf message freshId (t - now) now)),
       { st with jobs := st.jobs ++ [oneTimeJobOf message freshId (t - now) now] },
       [.registerJob freshId]) ∧
    set_reminder st message dueRaw (some t) freshId now =
      ("One-time reminder set for " ++ dueRaw ++ ". (Reminder ID: " ++ freshId ++ ")",
       st, [.deliver freshId (oneTimeFormat message)]) := by
  have h1 : ¬(0 < t - now) := by omega
  have h2 : ¬(now < t) := by omega
  constructor
  · simp [create_one_time_reminder, pyOrElse, DueArg.truthy, h1, oneTimeJobOf]
  · simp [set_reminder, h2]

/-- Claim C3 (witness): concrete instance, due time -5 with now 0. -/
theorem claim_C3_witness :
    ((-5 : Int) ≤ 0) ∧
    (create_one_time_reminder true true emptyState "m" none "r3" none
        (.str (some (-5))) 0 =
      ((some "r3", some (oneTimeJobOf "m" "r3" (-5 - 0) 0)),
       { emptyState with jobs := emptyState.jobs ++ [oneTimeJobOf "m" "r3" (-5 - 0) 0] },
       [.registerJob "r3"]) ∧
    set_reminder emptyState "m" "1969-12-31 23:59:55" (some (-5)) "r3" 0 =
      ("One-time reminder set for 1969-12-31 23:59:55. (Reminder ID: r3)",
       emptyState, [.deliver "r3" (oneTimeFormat "m")])) :=
  ⟨by decide, claim_C3_amended true emptyState "m" "r3" "1969-12-31 23:59:55" (-5) 0 (by decide)⟩

/-- Claim C9 (amended): `delete_one_time_reminder` and
`delete_recurring_reminder` return `True` whenever the DELETE statement
executes without a storage error — in particular for an unknown id, where
no row matched — and `False` only on a storage error; the boolean does
not report whether a row was removed. -/
theorem claim_C9_amended (storeOk : Bool) (st : ServiceState) (rid : String) :
    (delete_one_time_reminder storeOk st rid).1 = storeOk ∧
    (delete_recurring_reminder storeOk st rid).1 = storeOk ∧
    (delete_one_time_reminder true st rid).2.1.oneTimeRows =
      st.oneTimeRows.filter (fun r => !(r.id = rid)) ∧
    (delete_one_time_reminder false st rid).2.1.oneTimeRows = st.oneTimeRows ∧
    (delete_recurring_reminder true st rid).2.1.recurringRows =
      st.recurringRows.filter (fun r => !(r.id = rid)) ∧
    (delete_recurring_reminder false st rid).2.1.recurringRows = st.recurringRows := by
  cases storeOk <;>
    simp [delete_one_time_reminder, delete_recurring_reminder]

/-- Claim C10: with no delivery queue (hence no delivery callback), both
create operations return `(None, None)` without touching the store or the
schedule, and the reload on start does nothing. -/
theorem claim_C10 (storeOk : Bool) (st : ServiceState) (message freshId ts : String)
    (reminderId : Option String) (interval : Option String)
    (secondsUntilDue : Option Int) (dueTime : DueArg) (now : Int) :
    create_one_time_reminder false storeOk st message reminderId freshId
        secondsUntilDue dueTime now = ((none, none), st, []) ∧
    create_recurring_reminder false storeOk st message reminderId freshId
        interval ts now = .ok ((none, none), st, []) ∧
    load_reminders false storeOk st now = .ok (st, []) :=
  ⟨rfl, rfl, rfl⟩

/-- Helper: a job whose callback raises makes `_run_job` propagate with
only the `jobRaised` event. -/
theorem runJob_of_fails (now : Int) (cbFails : String → Bool) (storeOk : Bool)
    (st : ServiceState) (j : Job) (hf : jobFails cbFails j = true) :
    runJob now cbFails storeOk st j = (true, st, [Event.jobRaised j.rid]) := by
  cases ha : j.action <;> simp [runJob, ha, hf, Job.rid]

/-- Helper: `_run_job` raises exactly when the job's callback raises. -/
theorem runJob_fst (now : Int) (cbFails : String → Bool) (storeOk : Bool)
    (st : ServiceState) (j : Job) :
    (runJob now cbFails storeOk st j).1 = jobFails cbFails j := by
  cases ha : j.action <;> by_cases hf : jobFails cbFails j <;> simp [runJob, ha, hf]

/-- Helper: the deliveries of a single `_run_job` call. -/
theorem deliveriesOf_runJob (now : Int) (cbFails : String → Bool) (storeOk : Bool)
    (st : ServiceState) (j : Job) :
    deliveriesOf (runJob now cbFails storeOk st j).2.2 =
      if jobFails cbFails j then [] else [(j.rid, jobDeliveryText j)] := by
  cases storeOk <;> cases ha : j.action <;> by_cases hf : jobFails cbFails j <;>
    simp [runJob, ha, hf, delete_one_time_reminder, deliveriesOf, Job.rid, jobDeliveryText]

/-- Helper: deliveries of a concatenated trace. -/
theorem deliveriesOf_append (a b : List Event) :
    deliveriesOf (a ++ b) = deliveriesOf a ++ deliveriesOf b :=
  List.filterMap_append a b _

/-- Helper: every delivery of a tick comes from a job of the runnable
snapshot, under that job's `reminder_id`. -/
theorem deliver_runPendingAux_rid (now : Int) (cbFails : String → Bool) (storeOk : Bool) :
    ∀ (l : List Job) (st : ServiceState) (i m : String),
      (i, m) ∈ deliveriesOf (runPendingAux now cbFails storeOk st l).2.2 →
      ∃ j ∈ l, Job.rid j = i := by
  intro l
  induction l with
  | nil => intro st i m h; simp [runPendingAux, deliveriesOf] at h
  | cons j rest ih =>
    intro st i m h
    by_cases hf : jobFails cbFails j = true
    · rw [show runPendingAux now cbFails storeOk st (j :: rest) =
          (true, st, [Event.jobRaised j.rid]) by
            simp [runPendingAux, runJob_of_fails now cbFails storeOk st j hf]] at h
      simp [deliveriesOf] at h
    · have hres1 : (runJob now cbFails storeOk st j).1 = false := by
        rw [runJob_fst]; exact Bool.eq_false_iff.mpr hf
      simp only [runPendingAux, hres1, Bool.false_eq_true, if_false] at h
      rw [deliveriesOf_append] at h
      rcases List.mem_append.mp h with hl | hr
      · rw [show deliveriesOf (runJob now cbFails storeOk st j).2.2 =
              [(j.rid, jobDeliveryText j)] by
            rw [deliveriesOf_runJob]; simp [hf]] at hl
        have h' := List.mem_singleton.mp hl
        rw [Prod.ext_iff] at h'
        exact ⟨j, List.mem_cons_self j rest, h'.1.symm⟩
      · obtain ⟨j', hj', hr'⟩ := ih _ i m hr
        exact ⟨j', List.mem_cons_of_mem j hj', hr'⟩

/-- Helper: whatever `cancel_reminder` returns, the durable tables are
untouched, and every remaining job lacks the cancelled tag and was
already scheduled before. -/
theorem cancel_reminder_state (st : ServiceState) (rid : String) :
    (cancel_reminder st rid).2.oneTimeRows = st.oneTimeRows ∧
    (cancel_reminder st rid).2.recurringRows = st.recurringRows ∧
    (∀ j ∈ (cancel_reminder st rid).2.jobs,
      j.tags.contains rid = false ∧ j ∈ st.jobs) := by
  unfold cancel_reminder
  cases hfil : st.jobs.filter (fun j => j.tags.contains rid) with
  | nil =>
    refine ⟨rfl, rfl, fun j hj => ⟨?_, hj⟩⟩
    exact Bool.eq_false_iff.mpr (List.filter_eq_nil_iff.mp hfil j hj)
  | cons j0 js =>
    refine ⟨by simp [apply_ite Prod.snd, ite_self],
            by simp [apply_ite Prod.snd, ite_self], fun j hj => ?_⟩
    simp only [apply_ite Prod.snd, ite_self, scheduleClear] at hj
    have hj2 := List.mem_filter.mp hj
    exact ⟨by simpa using hj2.2, hj2.1⟩

/-- Claim C1 (amended): cancelling via the `cancel_reminder` tool removes
every job tagged with the id from the in-memory schedule (a subsequent
pending listing no longer shows the id, and no delivery for that id can
occur from a later scheduler tick in this run), but it leaves the durable
store untouched: the persisted row survives the cancellation. -/
theorem claim_C1_amended (st : ServiceState) (rid : String) (now : Int)
    (cbFails : String → Bool) (storeOk : Bool) (m : String)
    (hwt : ∀ j ∈ st.jobs, j.tags.contains j.rid = true) :
    (∀ j ∈ (cancel_reminder st rid).2.jobs, j.tags.contains rid = false) ∧
    (cancel_reminder st rid).2.oneTimeRows = st.oneTimeRows ∧
    (cancel_reminder st rid).2.recurringRows = st.recurringRows ∧
    rid ∉ pendingReminderIds (cancel_reminder st rid).2 ∧
    (rid, m) ∉ deliveriesOf
      (run_pending now cbFails storeOk (cancel_reminder st rid).2).2.2 := by
  obtain ⟨h1, h2, h3⟩ := cancel_reminder_state st rid
  refine ⟨fun j hj => (h3 j hj).1, h1, h2, ?_, ?_⟩
  · intro hmem
    simp only [pendingReminderIds, List.mem_append, List.mem_map] at hmem
    rcases hmem with ⟨j, hj, hjr⟩ | ⟨j, hj, hjr⟩ <;>
    · have hj1 := (List.mem_filter.mp hj).1
      have hcf := (h3 j hj1).1
      have hwtj := hwt j (h3 j hj1).2
      rw [hjr] at hwtj
      rw [hcf] at hwtj
      exact Bool.false_ne_true hwtj
  · intro hmem
    obtain ⟨j, hj, hjr⟩ :=
      deliver_runPendingAux_rid now cbFails storeOk _ _ rid m hmem
    have hj' : j ∈ (cancel_reminder st rid).2.jobs := by
      have hj2 := (List.mem_insertionSort _).mp hj
      exact (List.mem_filter.mp hj2).1
    have hcf := (h3 j hj').1
    have hwtj := hwt j (h3 j hj').2
    rw [hjr] at hwtj
    rw [hcf] at hwtj
    exact Bool.false_ne_true hwtj

/-- Claim C1 (witness): a concrete state holding the reminder `"r1"`
(row and tagged job); cancelling leaves the row, clears the job, and a
tick delivers nothing for `"r1"`. -/
theorem claim_C1_witness :
    (∀ j ∈ (⟨[⟨"r1", "m", some 100, 0⟩], [],
        [oneTimeJobOf "m" "r1" 100 0]⟩ : ServiceState).jobs,
      j.tags.contains j.rid = true) ∧
    ((∀ j ∈ (cancel_reminder ⟨[⟨"r1", "m", some 100, 0⟩], [],
        [oneTimeJobOf "m" "r1" 100 0]⟩ "r1").2.jobs,
      j.tags.contains "r1" = false) ∧
    (cancel_reminder ⟨[⟨"r1", "m", some 100, 0⟩], [],
        [oneTimeJobOf "m" "r1" 100 0]⟩ "r1").2.oneTimeRows =
      (⟨[⟨"r1", "m", some 100, 0⟩], [],
        [oneTimeJobOf "m" "r1" 100 0]⟩ : ServiceState).oneTimeRows ∧
    (cancel_reminder ⟨[⟨"r1", "m", some 100, 0⟩], [],
        [oneTimeJobOf "m" "r1" 100 0]⟩ "r1").2.recurringRows =
      (⟨[⟨"r1", "m", some 100, 0⟩], [],
        [oneTimeJobOf "m" "r1" 100 0]⟩ : ServiceState).recurringRows ∧
    "r1" ∉ pendingReminderIds (cancel_reminder ⟨[⟨"r1", "m", some 100, 0⟩], [],
        [oneTimeJobOf "m" "r1" 100 0]⟩ "r1").2 ∧
    ("r1", "x") ∉ deliveriesOf
      (run_pending 200 (fun _ => false) true
        (cancel_reminder ⟨[⟨"r1", "m", some 100, 0⟩], [],
          [oneTimeJobOf "m" "r1" 100 0]⟩ "r1").2).2.2) :=
  ⟨by decide,
   claim_C1_amended ⟨[⟨"r1", "m", some 100, 0⟩], [], [oneTimeJobOf "m" "r1" 100 0]⟩
     "r1" 200 (fun _ => false) true "x" (by decide)⟩

/-- Helper: if some job of the processed snapshot has a raising callback,
the tick ends in the exception and the trace ends with the `jobRaised`
event (nothing runs after the raise). -/
theorem runPendingAux_crash (now : Int) (cbFails : String → Bool) (storeOk : Bool) :
    ∀ (l : List Job) (st : ServiceState),
      (∃ j ∈ l, jobFails cbFails j = true) →
      (runPendingAux now cbFails storeOk st l).1 = true ∧
      ∃ pre i, (runPendingAux now cbFails storeOk st l).2.2 =
        pre ++ [Event.jobRaised i] := by
  intro l
  induction l with
  | nil =>
    rintro st ⟨j, hj, _⟩
    exact absurd hj (List.not_mem_nil j)
  | cons j rest ih =>
    rintro st ⟨j', hj', hf'⟩
    by_cases hf : jobFails cbFails j = true
    · rw [show runPendingAux now cbFails storeOk st (j :: rest) =
          (true, st, [Event.jobRaised j.rid]) by
        simp [runPendingAux, runJob_of_fails now cbFails storeOk st j hf]]
      exact ⟨rfl, [], j.rid, rfl⟩
    · have hj'' : j' ∈ rest := by
        rcases List.mem_cons.mp hj' with rfl | h
        · exact absurd hf' hf
        · exact h
      have hres1 : (runJob now cbFails storeOk st j).1 = false := by
        rw [runJob_fst]; exact Bool.eq_false_iff.mpr hf
      obtain ⟨hc, pre, i, htr⟩ :=
        ih (runJob now cbFails storeOk st j).2.1 ⟨j', hj'', hf'⟩
      simp only [runPendingAux, hres1, Bool.false_eq_true, if_false]
      refine ⟨hc, (runJob now cbFails storeOk st j).2.2 ++ pre, i, ?_⟩
      rw [htr, List.append_assoc]

/-- Claim C4 (amended): if any due job's action raises during a tick, the
exception is not caught: `run_pending` ends in the exception (so the
scheduler thread of `_run_continuously` terminates), and the trace stops
at the `jobRaised` event — due jobs not yet run in that tick do not
fire. -/
theorem claim_C4_amended (st : ServiceState) (now : Int) (cbFails : String → Bool)
    (storeOk : Bool)
    (h : ∃ j ∈ st.jobs, j.nextRun ≤ now ∧ jobFails cbFails j = true) :
    (run_pending now cbFails storeOk st).1 = true ∧
    ∃ pre i, (run_pending now cbFails storeOk st).2.2 =
      pre ++ [Event.jobRaised i] := by
  obtain ⟨j, hj, hdue, hf⟩ := h
  refine runPendingAux_crash now cbFails storeOk _ st ⟨j, ?_, hf⟩
  unfold dueJobs
  exact (List.mem_insertionSort _).mpr (List.mem_filter.mpr ⟨hj, by simp [hdue]⟩)

/-- Claim C4 (witness): a single due job whose delivery raises crashes
the tick. -/
theorem claim_C4_witness :
    (∃ j ∈ (⟨[], [], [⟨1, .hours, none, none, 0, ["recurring", "z"],
        .recurring "z1" "z" "hour" ""⟩]⟩ : ServiceState).jobs,
      j.nextRun ≤ 3 ∧
        jobFails (fun m => m == "🔄 RECURRING REMINDER (hour): z1") j = true) ∧
    ((run_pending 3 (fun m => m == "🔄 RECURRING REMINDER (hour): z1") true
        ⟨[], [], [⟨1, .hours, none, none, 0, ["recurring", "z"],
          .recurring "z1" "z" "hour" ""⟩]⟩).1 = true ∧
    ∃ pre i, (run_pending 3 (fun m => m == "🔄 RECURRING REMINDER (hour): z1") true
        ⟨[], [], [⟨1, .hours, none, none, 0, ["recurring", "z"],
          .recurring "z1" "z" "hour" ""⟩]⟩).2.2 =
      pre ++ [Event.jobRaised i]) :=
  ⟨by decide,
   claim_C4_amended ⟨[], [], [⟨1, .hours, none, none, 0, ["recurring", "z"],
       .recurring "z1" "z" "hour" ""⟩]⟩ 3
     (fun m => m == "🔄 RECURRING REMINDER (hour): z1") true (by decide)⟩

/-- Helper: `Job.rid` of a job built from a rule is the bound id. -/
theorem Job.rid_jobOfRule (now : Int) (rule : RecurringRule) (tags : List String)
    (m i d t : String) :
    (jobOfRule now rule tags (.recurring m i d t)).rid = i := by
  cases rule <;> rfl

/-- Helper: `Job.rid` of a reloaded one-time job is the row id. -/
theorem Job.rid_loadOneTimeJob (now : Int) (r : OneTimeRow) :
    (loadOneTimeJob now r).rid = r.id := rfl

/-- Helper: sequentially deleting by the listed ids filters them all out. -/
theorem removeRowIds_eq_filter :
    ∀ (ids : List String) (l : List OneTimeRow),
      removeRowIds ids l = l.filter (fun r => !(ids.contains r.id)) := by
  intro ids
  induction ids with
  | nil => intro l; simp [removeRowIds]
  | cons i is ih =>
    intro l
    rw [removeRowIds, ih, List.filter_filter]
    refine List.filter_congr fun r _ => ?_
    simp [List.contains_cons, Bool.and_comm]

/-- Helper: with distinct row ids, deleting exactly the past-due ids from
the table leaves exactly the still-future rows. -/
theorem removeRowIds_past (now : Int) (rows : List OneTimeRow)
    (hnd : (rows.map OneTimeRow.id).Nodup) :
    removeRowIds ((rows.filter (fun r => !rowDueLater now r)).map OneTimeRow.id) rows =
      rows.filter (rowDueLater now) := by
  rw [removeRowIds_eq_filter]
  refine List.filter_congr fun r hr => ?_
  by_cases hd : rowDueLater now r = true
  · rw [hd]
    simp only [Bool.not_eq_true']
    apply Bool.eq_false_iff.mpr
    intro hcon
    obtain ⟨x, hx, hxid⟩ := List.mem_map.mp (List.mem_of_elem_eq_true hcon)
    have hxr : x = r :=
      List.inj_on_of_nodup_map hnd (List.mem_of_mem_filter hx) hr hxid
    have hxpast := (List.mem_filter.mp hx).2
    rw [hxr, hd] at hxpast
    simp at hxpast
  · have hd' : (!rowDueLater now r) = true := by
      simp [Bool.eq_false_iff.mpr hd]
    have hmem : r.id ∈ (rows.filter (fun x => !rowDueLater now x)).map OneTimeRow.id :=
      List.mem_map.mpr ⟨r, List.mem_filter.mpr ⟨hr, hd'⟩, rfl⟩
    have hcon : (List.map OneTimeRow.id
        (List.filter (fun x => !rowDueLater now x) rows)).contains r.id = true :=
      List.elem_eq_true_of_mem hmem
    rw [hcon]
    simp [Bool.eq_false_iff.mpr hd]

/-- Helper: reloading a still-future row re-registers its job with its
original id and writes nothing. -/
theorem loadOneTimeStep_future (storeOk : Bool) (now : Int) (st : ServiceState)
    (r : OneTimeRow) (due : Int) (hdue : r.dueTime = some due) (hlt : now < due)
    (hid : r.id ≠ "") :
    loadOneTimeStep storeOk now st r =
      .ok ({ st with jobs := st.jobs ++ [loadOneTimeJob now r] },
           [.registerJob r.id]) := by
  simp [loadOneTimeStep, hdue, hlt, create_one_time_reminder, pyOrElse, hid,
    DueArg.truthy, loadOneTimeJob]

/-- Helper: reloading a past-due row delivers it once and deletes its
row (the schedule clear is a no-op when no job carries the id). -/
theorem loadOneTimeStep_past (now : Int) (st : ServiceState)
    (r : OneTimeRow) (due : Int) (hdue : r.dueTime = some due) (hge : ¬(now < due))
    (hjobs : ∀ j ∈ st.jobs, j.tags.contains r.id = false) :
    loadOneTimeStep true now st r =
      .ok ({ st with oneTimeRows := st.oneTimeRows.filter (fun x => !(x.id = r.id)) },
           [.deliver r.id (oneTimeFormat r.message), .clearSchedule r.id,
            .storeDeleteOneTime r.id]) := by
  have hclear : scheduleClear r.id st.jobs = st.jobs := by
    refine List.filter_eq_self.mpr fun j hj => ?_
    simp only [Bool.not_eq_true']
    exact hjobs j hj
  simp [loadOneTimeStep, hdue, hge, delete_one_time_reminder, hclear]

/-- Helper: the effect of the `_load_one_time_reminders` loop over a row
snapshot: still-future rows are re-registered in order (no writes),
past-due rows are each delivered exactly once and their rows deleted. -/
theorem loadOneTimeAux_ok (now : Int) :
    ∀ (rows : List OneTimeRow) (st : ServiceState),
      (∀ r ∈ rows, r.dueTime.isSome = true) →
      (∀ r ∈ rows, r.id ≠ "" ∧ r.id ≠ "reminder") →
      ((rows.map OneTimeRow.id).Nodup) →
      (∀ r ∈ rows, ∀ j ∈ st.jobs, j.tags.contains r.id = false) →
      ∃ stOut evs, loadOneTimeAux true now st rows = .ok (stOut, evs) ∧
        stOut.jobs = st.jobs ++ (rows.filter (rowDueLater now)).map (loadOneTimeJob now) ∧
        stOut.oneTimeRows =
          removeRowIds ((rows.filter (fun r => !rowDueLater now r)).map OneTimeRow.id)
            st.oneTimeRows ∧
        stOut.recurringRows = st.recurringRows ∧
        deliveriesOf evs =
          (rows.filter (fun r => !rowDueLater now r)).map
            (fun r => (r.id, oneTimeFormat r.message)) := by
  intro rows
  induction rows with
  | nil =>
    intro st _ _ _ _
    exact ⟨st, [], rfl, by simp, rfl, rfl, rfl⟩
  | cons r rs ih =>
    intro st h1 h2 h3 h4
    obtain ⟨due, hdue⟩ := Option.isSome_iff_exists.mp (h1 r (List.mem_cons_self r rs))
    have hid := h2 r (List.mem_cons_self r rs)
    have h1' : ∀ x ∈ rs, x.dueTime.isSome = true :=
      fun x hx => h1 x (List.mem_cons_of_mem r hx)
    have h2' : ∀ x ∈ rs, x.id ≠ "" ∧ x.id ≠ "reminder" :=
      fun x hx => h2 x (List.mem_cons_of_mem r hx)
    rw [List.map_cons] at h3
    have h3' : (rs.map OneTimeRow.id).Nodup := (List.nodup_cons.mp h3).2
    have hnotin : r.id ∉ rs.map OneTimeRow.id := (List.nodup_cons.mp h3).1
    by_cases hlt : now < due
    · have hdl : rowDueLater now r = true := by simp [rowDueLater, hdue, hlt]
      have hstep := loadOneTimeStep_future true now st r due hdue hlt hid.1
      have h4' : ∀ x ∈ rs,
          ∀ j ∈ ({ st with jobs := st.jobs ++ [loadOneTimeJob now r] } : ServiceState).jobs,
          j.tags.contains x.id = false := by
        intro x hx j hj
        rcases List.mem_append.mp hj with hj' | hj'
        · exact h4 x (List.mem_cons_of_mem r hx) j hj'
        · have hj'' := List.mem_singleton.mp hj'
          subst hj''
          have hxr : x.id ≠ r.id :=
            fun he => hnotin (he ▸ List.mem_map_of_mem OneTimeRow.id hx)
          simp [loadOneTimeJob, List.contains_cons, (h2' x hx).2, hxr]
      obtain ⟨stB, evsB, hload, hjobs, hrows, hrecur, hdel⟩ :=
        ih { st with jobs := st.jobs ++ [loadOneTimeJob now r] } h1' h2' h3' h4'
      refine ⟨stB, [Event.registerJob r.id] ++ evsB, ?_, ?_, ?_, ?_, ?_⟩
      · simp [loadOneTimeAux, hstep, hload]
      · rw [hjobs]
        simp [hdl, List.append_assoc]
      · rw [hrows]
        simp [hdl]
      · rw [hrecur]
      · rw [deliveriesOf_append, hdel]
        simp [deliveriesOf, hdl]
    · have hdl : rowDueLater now r = false := by simp [rowDueLater, hdue, hlt]
      have hstep := loadOneTimeStep_past now st r due hdue hlt
        (h4 r (List.mem_cons_self r rs))
      have h4' : ∀ x ∈ rs,
          ∀ j ∈ ({ st with
              oneTimeRows := st.oneTimeRows.filter (fun x => !(x.id = r.id)) } :
            ServiceState).jobs,
          j.tags.contains x.id = false :=
        fun x hx j hj => h4 x (List.mem_cons_of_mem r hx) j hj
      obtain ⟨stB, evsB, hload, hjobs, hrows, hrecur, hdel⟩ :=
        ih { st with oneTimeRows := st.oneTimeRows.filter (fun x => !(x.id = r.id)) }
          h1' h2' h3' h4'
      refine ⟨stB,
        [Event.deliver r.id (oneTimeFormat r.message), Event.clearSchedule r.id,
         Event.storeDeleteOneTime r.id] ++ evsB, ?_, ?_, ?_, ?_, ?_⟩
      · simp [loadOneTimeAux, hstep, hload]
      · rw [hjobs]
        simp [hdl]
      · rw [hrows]
        simp [hdl, removeRowIds]
      · rw [hrecur]
      · rw [deliveriesOf_append, hdel]
        simp [deliveriesOf, hdl]

/-- Helper: re-inserting a row whose id is already present keeps the id
column of the table (and everything else) unchanged. -/
theorem upsertRecurring_ids (st : ServiceState) (row : RecurringRow)
    (h : row.id ∈ st.recurringRows.map RecurringRow.id) :
    (upsertRecurring st row).recurringRows.map RecurringRow.id =
      st.recurringRows.map RecurringRow.id ∧
    (upsertRecurring st row).oneTimeRows = st.oneTimeRows ∧
    (upsertRecurring st row).jobs = st.jobs := by
  obtain ⟨x, hx, hxid⟩ := List.mem_map.mp h
  have hany : st.recurringRows.any (fun r => r.id = row.id) = true :=
    List.any_eq_true.mpr ⟨x, hx, by simp [hxid]⟩
  simp only [upsertRecurring, hany, if_true]
  refine ⟨?_, by trivial, by trivial⟩
  rw [List.map_map]
  refine List.map_congr_left fun a _ => ?_
  by_cases h' : a.id = row.id
  · simp [Function.comp, h']
  · simp [Function.comp, h']

/-- Helper: reloading one recurring row with a valid spec re-registers
its job under the original id and re-upserts the row. -/
theorem loadRecurringStep_ok (now : Int) (st : ServiceState) (r : RecurringRow)
    (rule : RecurringRule) (hne : r.interval ≠ "") (hid : r.id ≠ "")
    (hp : parseRecurringSpec r.interval r.timeSpec = .ok (some rule)) :
    loadRecurringStep true now st r =
      .ok (upsertRecurring
            { st with jobs := st.jobs ++ [jobOfRule now rule ["recurring", r.id]
                (.recurring r.message r.id (pyToLower r.interval) r.timeSpec)] }
            { id := r.id, message := r.message, interval := r.interval,
              timeSpec := r.timeSpec, createdAt := now },
           [.registerJob r.id, .storeWriteRecurring r.id]) := by
  rw [loadRecurringStep, create_recurring_eq_of_parse_some true st r.message (some r.id)
    r.id r.interval r.timeSpec now rule hne hp]
  simp [pyOrElse, hid]

/-- Helper: the effect of the `_load_recurring_reminders` loop: every row
with a valid spec is re-registered in order, nothing is delivered, and
the id column of the table is unchanged. -/
theorem loadRecurringAux_ok (now : Int) :
    ∀ (rows : List RecurringRow) (st : ServiceState),
      (∀ r ∈ rows, validRecurringSpec r.interval r.timeSpec = true) →
      (∀ r ∈ rows, r.id ≠ "") →
      (∀ r ∈ rows, r.id ∈ st.recurringRows.map RecurringRow.id) →
      ∃ stOut evs, loadRecurringAux true now st rows = .ok (stOut, evs) ∧
        stOut.jobs.map Job.rid = st.jobs.map Job.rid ++ rows.map RecurringRow.id ∧
        stOut.oneTimeRows = st.oneTimeRows ∧
        stOut.recurringRows.map RecurringRow.id = st.recurringRows.map RecurringRow.id ∧
        deliveriesOf evs = [] := by
  intro rows
  induction rows with
  | nil =>
    intro st _ _ _
    exact ⟨st, [], rfl, by simp, rfl, rfl, rfl⟩
  | cons r rs ih =>
    intro st hv hid hmem
    have hvr := hv r (List.mem_cons_self r rs)
    cases hp : parseRecurringSpec r.interval r.timeSpec with
    | error e => simp [validRecurringSpec, hp] at hvr
    | ok o =>
      cases o with
      | none => simp [validRecurringSpec, hp] at hvr
      | some rule =>
        have hne : r.interval ≠ "" := by
          intro h0
          rw [h0] at hp
          exact Option.noConfusion
            (Except.ok.inj ((show parseRecurringSpec "" r.timeSpec = .ok none
              from rfl).symm.trans hp))
        have hstep := loadRecurringStep_ok now st r rule hne
          (hid r (List.mem_cons_self r rs)) hp
        obtain ⟨hids, hot, hjobs1⟩ := upsertRecurring_ids
          { st with jobs := st.jobs ++ [jobOfRule now rule ["recurring", r.id]
              (.recurring r.message r.id (pyToLower r.interval) r.timeSpec)] }
          { id := r.id, message := r.message, interval := r.interval,
            timeSpec := r.timeSpec, createdAt := now }
          (hmem r (List.mem_cons_self r rs))
        have hv' : ∀ x ∈ rs, validRecurringSpec x.interval x.timeSpec = true :=
          fun x hx => hv x (List.mem_cons_of_mem r hx)
        have hid' : ∀ x ∈ rs, x.id ≠ "" := fun x hx => hid x (List.mem_cons_of_mem r hx)
        have hmem' : ∀ x ∈ rs,
            x.id ∈ (upsertRecurring
              { st with jobs := st.jobs ++ [jobOfRule now rule ["recurring", r.id]
                  (.recurring r.message r.id (pyToLower r.interval) r.timeSpec)] }
              { id := r.id, message := r.message, interval := r.interval,
                timeSpec := r.timeSpec, createdAt := now }).recurringRows.map
                  RecurringRow.id := by
          intro x hx
          rw [hids]
          exact hmem x (List.mem_cons_of_mem r hx)
        obtain ⟨stB, evsB, hload, hjobsB, hotB, hrecB, hdelB⟩ := ih _ hv' hid' hmem'
        refine ⟨stB, [Event.registerJob r.id, Event.storeWriteRecurring r.id] ++ evsB,
          ?_, ?_, ?_, ?_, ?_⟩
        · simp [loadRecurringAux, hstep, hload]
        · rw [hjobsB, hjobs1]
          simp [Job.rid_jobOfRule]
        · rw [hotB, hot]
        · rw [hrecB, hids]
        · rw [deliveriesOf_append, hdelB]
          simp [deliveriesOf]

/-- Claim C5: restarting the service (stop, then start reloading the
store at time `now`) re-registers exactly the still-active reminder ids
into the schedule — the still-future one-time rows followed by all
recurring rows, each under its original id — while every one-time row
whose due time elapsed is delivered exactly once during the reload and
its row is deleted from the store.  (Hypotheses: rows were written by the
create operations, so one-time due times parse, ids are non-empty,
distinct and not the literal tag `"reminder"`, and recurring specs are
ones the parser accepts.) -/
theorem claim_C5 (st : ServiceState) (now : Int)
    (h1 : ∀ r ∈ st.oneTimeRows, r.dueTime.isSome = true)
    (h2 : ∀ r ∈ st.oneTimeRows, r.id ≠ "" ∧ r.id ≠ "reminder")
    (h3 : (st.oneTimeRows.map OneTimeRow.id).Nodup)
    (h4 : ∀ r ∈ st.recurringRows, validRecurringSpec r.interval r.timeSpec = true)
    (h5 : ∀ r ∈ st.recurringRows, r.id ≠ "") :
    ∃ stOut evs, load_reminders true true (stopService st) now = .ok (stOut, evs) ∧
      stOut.jobs.map Job.rid =
        (st.oneTimeRows.filter (rowDueLater now)).map OneTimeRow.id ++
          st.recurringRows.map RecurringRow.id ∧
      stOut.oneTimeRows = st.oneTimeRows.filter (rowDueLater now) ∧
      stOut.recurringRows.map RecurringRow.id = st.recurringRows.map RecurringRow.id ∧
      deliveriesOf evs =
        (st.oneTimeRows.filter (fun r => !rowDueLater now r)).map
          (fun r => (r.id, oneTimeFormat r.message)) := by
  obtain ⟨st1, e1, hload1, hjobs1, hrows1, hrec1, hdel1⟩ :=
    loadOneTimeAux_ok now st.oneTimeRows (stopService st) h1 h2 h3
      (fun r _ j hj => absurd hj (List.not_mem_nil j))
  have hrec1' : st1.recurringRows = st.recurringRows := hrec1
  obtain ⟨st2, e2, hload2, hjobs2, hot2, hrec2, hdel2⟩ :=
    loadRecurringAux_ok now st.recurringRows st1 h4 h5
      (fun r hr => by rw [hrec1']; exact List.mem_map_of_mem RecurringRow.id hr)
  refine ⟨st2, e1 ++ e2, ?_, ?_, ?_, ?_, ?_⟩
  · have hsnap : (stopService st).oneTimeRows = st.oneTimeRows := rfl
    simp only [load_reminders, Bool.not_true, Bool.false_eq_true, if_false, hsnap,
      hload1, hrec1', hload2]
  · rw [hjobs2, hjobs1]
    have hstop : (stopService st).jobs = [] := rfl
    rw [hstop]
    simp only [List.nil_append, List.map_map]
    have hcomp : List.map (Job.rid ∘ loadOneTimeJob now)
        (List.filter (rowDueLater now) st.oneTimeRows) =
          List.map OneTimeRow.id (List.filter (rowDueLater now) st.oneTimeRows) :=
      List.map_congr_left fun r _ => rfl
    rw [hcomp]
  · rw [hot2, hrows1]
    have hstop : (stopService st).oneTimeRows = st.oneTimeRows := rfl
    rw [hstop]
    exact removeRowIds_past now st.oneTimeRows h3
  · rw [hrec2, hrec1']
  · rw [deliveriesOf_append, hdel1, hdel2, List.append_nil]

/-- Claim C5 (witness): two one-time rows (one still future at 50, one
past due) and one recurring daily row: the reload keeps ids `"a"` and
`"c"` scheduled, delivers `"b"` exactly once and deletes its row. -/
theorem claim_C5_witness :
    ((∀ r ∈ (⟨[⟨"a", "m1", some 100, 0⟩, ⟨"b", "m2", some 10, 0⟩],
        [⟨"c", "m3", "day", "", 0⟩], []⟩ : ServiceState).oneTimeRows,
      r.dueTime.isSome = true) ∧
     (∀ r ∈ (⟨[⟨"a", "m1", some 100, 0⟩, ⟨"b", "m2", some 10, 0⟩],
        [⟨"c", "m3", "day", "", 0⟩], []⟩ : ServiceState).oneTimeRows,
      r.id ≠ "" ∧ r.id ≠ "reminder") ∧
     ((⟨[⟨"a", "m1", some 100, 0⟩, ⟨"b", "m2", some 10, 0⟩],
        [⟨"c", "m3", "day", "", 0⟩], []⟩ : ServiceState).oneTimeRows.map
          OneTimeRow.id).Nodup ∧
     (∀ r ∈ (⟨[⟨"a", "m1", some 100, 0⟩, ⟨"b", "m2", some 10, 0⟩],
        [⟨"c", "m3", "day", "", 0⟩], []⟩ : ServiceState).recurringRows,
      validRecurringSpec r.interval r.timeSpec = true) ∧
     (∀ r ∈ (⟨[⟨"a", "m1", some 100, 0⟩, ⟨"b", "m2", some 10, 0⟩],
        [⟨"c", "m3", "day", "", 0⟩], []⟩ : ServiceState).recurringRows,
      r.id ≠ "")) ∧
    (∃ stOut evs,
      load_reminders true true
          (stopService ⟨[⟨"a", "m1", some 100, 0⟩, ⟨"b", "m2", some 10, 0⟩],
            [⟨"c", "m3", "day", "", 0⟩], []⟩) 50 = .ok (stOut, evs) ∧
      stOut.jobs.map Job.rid =
        ((⟨[⟨"a", "m1", some 100, 0⟩, ⟨"b", "m2", some 10, 0⟩],
          [⟨"c", "m3", "day", "", 0⟩], []⟩ : ServiceState).oneTimeRows.filter
            (rowDueLater 50)).map OneTimeRow.id ++
          (⟨[⟨"a", "m1", some 100, 0⟩, ⟨"b", "m2", some 10, 0⟩],
            [⟨"c", "m3", "day", "", 0⟩], []⟩ : ServiceState).recurringRows.map
              RecurringRow.id ∧
      stOut.oneTimeRows =
        (⟨[⟨"a", "m1", some 100, 0⟩, ⟨"b", "m2", some 10, 0⟩],
          [⟨"c", "m3", "day", "", 0⟩], []⟩ : ServiceState).oneTimeRows.filter
            (rowDueLater 50) ∧
      stOut.recurringRows.map RecurringRow.id =
        (⟨[⟨"a", "m1", some 100, 0⟩, ⟨"b", "m2", some 10, 0⟩],
          [⟨"c", "m3", "day", "", 0⟩], []⟩ : ServiceState).recurringRows.map
            RecurringRow.id ∧
      deliveriesOf evs =
        ((⟨[⟨"a", "m1", some 100, 0⟩, ⟨"b", "m2", some 10, 0⟩],
          [⟨"c", "m3", "day", "", 0⟩], []⟩ : ServiceState).oneTimeRows.filter
            (fun r => !rowDueLater 50 r)).map
              (fun r => (r.id, oneTimeFormat r.message))) :=
  ⟨⟨by decide, by decide, by decide, by decide, by decide⟩,
   claim_C5 ⟨[⟨"a", "m1", some 100, 0⟩, ⟨"b", "m2", some 10, 0⟩],
       [⟨"c", "m3", "day", "", 0⟩], []⟩ 50
     (by decide) (by decide) (by decide) (by decide) (by decide)⟩
